import Mathlib

/-!
Shallow embedding of the esmini SwarmTrafficAction core
(OSCGlobalAction.cpp): the despawn/spawn lifecycle manager, the
road/lane sampler, the step throttle, and the angular skeletons of the
road segmenter and the ellipse sampler.

Conventions of the embedding:
* machine doubles become exact rationals;
* headings and angles are measured in multiples of pi, so the source
  constant M_PI is the rational 1, the angular step pi/36 is 1/36, and
  the seam offset pi/72 is 1/72;
* the pseudo-random engine (re-seeded from std::random_device on every
  call in the source) becomes an explicit oracle structure Rng whose
  fields stand for the raw draws the source makes;
* the external road model and entity repository are folded into the
  records: a solution point carries the resolved road id, arc length
  and driving-lane ids that the source obtains through road-model
  queries, and a lifecycle record carries the current pose of its
  vehicle, which the source reads back through the entity repository
  (vehicles do not move within a single evaluation).
-/

namespace SwarmTraffic

/-- Max check count before deleting uneffective vehicles (source line 34). -/
def USELESS_THRESHOLD : ℕ := 5

/-- Min distance between two spawned vehicles (source line 35). -/
def VHEICLE_DISTANCE : ℚ := 12

/-- Sleep time between two executions of a step (source line 36). -/
def TIME_INTERVAL : ℚ := 1 / 10

/-- Angles are measured in multiples of pi throughout the embedding, so
the source constant M_PI is the rational 1. -/
def M_PI : ℚ := 1

/-- Planar pose of the central (reference) object; the rotation is
carried as the exact pair (ch, sh) = (cos h, sin h). -/
structure Pose where
  x : ℚ
  y : ℚ
  ch : ℚ
  sh : ℚ
deriving DecidableEq

/-- Configuration of the action: outer semi-axes, derived mid semi-axes
and the target fleet size (fields of SwarmTrafficAction). -/
structure Cfg where
  semiMajorAxis : ℚ
  semiMinorAxis : ℚ
  midSMjA : ℚ
  midSMnA : ℚ
  numberOfVehicles : ℤ
deriving DecidableEq

/-- Start (source lines 118-119): the mid ellipse semi-axes are the
averages of the configured outer semi-axes and the inner radius. -/
def mkCfg (innerRadius semiMajorAxis semiMinorAxis : ℚ) (numberOfVehicles : ℤ) : Cfg :=
  { semiMajorAxis := semiMajorAxis
    semiMinorAxis := semiMinorAxis
    midSMjA := (semiMajorAxis + innerRadius) / 2
    midSMnA := (semiMinorAxis + innerRadius) / 2
    numberOfVehicles := numberOfVehicles }

/-- Modelled from the spec: the signed ellipse-membership function
STGeometry::ellipse (declared in OSCSwarmTrafficGeometry.hpp, whose
definition is not under src/).  Membership of point (x, y) against the
ellipse centered at (cx, cy), rotated by the heading whose cosine and
sine are ch and sh, with semi-axes A and B: negative strictly inside,
zero exactly on the boundary, positive strictly outside. -/
def ellipse (cx cy ch sh A B x y : ℚ) : ℚ :=
  ((ch * (x - cx) + sh * (y - cy)) / A) ^ 2
    + ((ch * (y - cy) - sh * (x - cx)) / B) ^ 2 - 1

/-- Lifecycle record for one active vehicle (struct SpawnInfo).  The
fields x, y, s are the current pose of the referenced vehicle, which the
source reads through the entity repository (GetObjectById); they are
folded into the record because the repository is external and vehicles
do not move within a single evaluation. -/
structure SpawnInfo where
  vehicleID : ℕ
  outMidAreaCount : ℕ
  roadID : ℤ
  lane : ℤ
  x : ℚ
  y : ℚ
  s : ℚ
  simTime : ℚ
deriving DecidableEq

/-- Outer-ellipse membership of a record's vehicle (source line 402). -/
def e0At (cfg : Cfg) (cp : Pose) (r : SpawnInfo) : ℚ :=
  ellipse cp.x cp.y cp.ch cp.sh cfg.semiMajorAxis cfg.semiMinorAxis r.x r.y

/-- Mid-ellipse membership of a record's vehicle (source line 403). -/
def e1At (cfg : Cfg) (cp : Pose) (r : SpawnInfo) : ℚ :=
  ellipse cp.x cp.y cp.ch cp.sh cfg.midSMjA cfg.midSMnA r.x r.y

/-- Decision taken by despawn for one record (source lines 405-413):
none means the vehicle is deleted, some k means it is kept with its
outMidAreaCount set to k. -/
def despawnDecide (e0 e1 : ℚ) (count : ℕ) : Option ℕ :=
  if e0 > 1 / 1000 then -- outside major ellipse
    none
  else if e1 > 1 / 1000 ∨ (0 ≤ e1 ∧ e1 ≤ 1 / 1000) then -- outside middle ellipse or on the border
    if count + 1 > USELESS_THRESHOLD then none else some (count + 1)
  else
    some 0

/-- Despawn pass (source lines 391-428): every record is evaluated by
despawnDecide; deleted records are erased, kept records carry their
updated counter; the second component is the number of deletions, which
becomes the replacement quota of the following spawn call. -/
def despawn (cfg : Cfg) (cp : Pose) : List SpawnInfo → List SpawnInfo × ℕ
  | [] => ([], 0)
  | r :: rest =>
    let prev := despawn cfg cp rest
    match despawnDecide (e0At cfg cp r) (e1At cfg cp r) r.outMidAreaCount with
    | none => (prev.1, prev.2 + 1)
    | some k => ({ r with outMidAreaCount := k } :: prev.1, prev.2)

/-- Solution point (road/ellipse crossing) together with the values the
source resolves for it through the external road model: XYZH2TrackPos
gives road id and arc length s, and the road queries give the list of
driving-lane ids at that arc length (GetNumberOfDrivingLanes is its
length, GetDrivingLaneByIdx i its i-th entry, null when out of range). -/
structure Pt where
  roadId : ℤ
  s : ℚ
  x : ℚ
  y : ℚ
  drivingLanes : List ℤ
deriving DecidableEq

/-- Placement selection produced by sampleRoads (struct SelectInfo):
the resolved point and the number of lanes to spawn on. -/
structure SelectInfo where
  pt : Pt
  nLanes : ℤ
deriving DecidableEq

/-- Oracle for the randomness of one evaluation.  The source re-seeds a
fresh mt19937 from std::random_device on every call; each field stands
for the raw draws that engine produces: countDraw feeds the
nCarsToSpawn draw, selected stands for the shuffle-and-sample selection
of solution points (sampleRoads lines 279-280), laneDraws feeds the
per-point extra-lane draws (line 317), and idxChoices are the lane
indices chosen by std::sample for each selection (spawn line 350). -/
structure Rng where
  countDraw : ℕ
  selected : List Pt
  laneDraws : List ℕ
  idxChoices : List (List ℕ)
deriving DecidableEq

/-- Draw of std::uniform_int_distribution(a, b) from a raw draw r; for
a ≤ b the result is in [a, b] (uniform when r is uniform). -/
def uniformInt (a b : ℤ) (r : ℕ) : ℤ := a + ((r % (b - a + 1).toNat : ℕ) : ℤ)

/-- Lane distribution of sampleRoads when there are fewer solution
points than vehicles to spawn (source lines 302-328): every point is
visited; a point with no driving lanes returns its share to the pool;
otherwise, while the pool is positive, an extra-lane count is drawn
from [0, min(lanesLeft, nDrivingLanes)] and then decremented when
positive (line 318), the point receives 1 + lanesN lanes and the pool
shrinks by lanesN. -/
def distributeLanes : List Pt → ℤ → List ℕ → List SelectInfo
  | [], _, _ => []
  | pt :: rest, lanesLeft, draws =>
    if pt.drivingLanes.length = 0 then
      distributeLanes rest (lanesLeft + 1) draws
    else
      let lanesN : ℤ :=
        if 0 < lanesLeft then
          let d := uniformInt 0 (min lanesLeft (pt.drivingLanes.length : ℤ)) draws.headI
          if d = 0 then 0 else d - 1
        else 0
      { pt := pt, nLanes := 1 + lanesN }
        :: distributeLanes rest (lanesLeft - lanesN) (if 0 < lanesLeft then draws.tail else draws)

/-- Ghost companion of distributeLanes: the value of the lanesLeft
pool when the loop finishes, threading the pool exactly as
distributeLanes does. -/
def distributeLanesFinal : List Pt → ℤ → List ℕ → ℤ
  | [], lanesLeft, _ => lanesLeft
  | pt :: rest, lanesLeft, draws =>
    if pt.drivingLanes.length = 0 then
      distributeLanesFinal rest (lanesLeft + 1) draws
    else
      let lanesN : ℤ :=
        if 0 < lanesLeft then
          let d := uniformInt 0 (min lanesLeft (pt.drivingLanes.length : ℤ)) draws.headI
          if d = 0 then 0 else d - 1
        else 0
      distributeLanesFinal rest (lanesLeft - lanesN) (if 0 < lanesLeft then draws.tail else draws)

/-- Road/lane sampler (source lines 257-330).  When maxN < minN it
logs and returns with no selection; otherwise nCarsToSpawn is drawn
uniformly from [minN, maxN]; with at least as many solution points as
vehicles, a random selection of nCarsToSpawn points (the rng.selected
oracle) each receive one lane, points without driving lanes skipped;
with fewer points than vehicles, distributeLanes runs over all points
with an initial pool of nCarsToSpawn - sols.length. -/
def sampleRoads (minN maxN : ℤ) (sols : List Pt) (rng : Rng) : List SelectInfo :=
  if maxN < minN then []
  else
    let nCarsToSpawn := uniformInt minN maxN rng.countDraw
    if nCarsToSpawn ≤ (sols.length : ℤ) ∧ 0 < nCarsToSpawn then
      rng.selected.filterMap fun pt =>
        if pt.drivingLanes.length = 0 then none
        else some { pt := pt, nLanes := 1 }
    else
      distributeLanes sols (nCarsToSpawn - sols.length) rng.laneDraws

/-- Spacing check (source lines 379-389): false when some active record
on the same road and lane has a vehicle within VHEICLE_DISTANCE of the
candidate arc length. -/
def ensureDistance (spawnedV : List SpawnInfo) (roadId : ℤ) (s : ℚ) (lane : ℤ) : Bool :=
  spawnedV.all fun info =>
    ! decide (info.lane = lane ∧ info.roadID = roadId ∧ |info.s - s| ≤ VHEICLE_DISTANCE)

/-- Lifecycle record created for a vehicle spawned at a point on a lane
(spawn lines 362-374): id assigned by the entity repository, counter 0,
road and lane of the candidate, vehicle placed at the candidate pose. -/
def newSpawnInfo (nid : ℕ) (pt : Pt) (laneID : ℤ) (simTime : ℚ) : SpawnInfo :=
  { vehicleID := nid
    outMidAreaCount := 0
    roadID := pt.roadId
    lane := laneID
    x := pt.x
    y := pt.y
    s := pt.s
    simTime := simTime }

/-- Inner spawn loop for one selection (spawn lines 351-375): for each
chosen lane index, resolve the lane id (an out-of-range index is the
null-lane warning path and is skipped), reject the candidate failing
ensureDistance, otherwise register the vehicle and append its record.
The state threads the active records and the next repository id. -/
def spawnOne (simTime : ℚ) (inf : SelectInfo) (idxs : List ℕ)
    (st : List SpawnInfo × ℕ) : List SpawnInfo × ℕ :=
  idxs.foldl
    (fun st idx =>
      match inf.pt.drivingLanes.get? idx with
      | none => st
      | some laneID =>
        if ensureDistance st.1 inf.pt.roadId inf.pt.s laneID then
          (st.1 ++ [newSpawnInfo st.2 inf.pt laneID simTime], st.2 + 1)
        else st)
    st

/-- Outer spawn loop (spawn lines 344-376) over all selections, each
consuming its list of chosen lane indices from the oracle. -/
def spawnAll (simTime : ℚ) : List SelectInfo → List (List ℕ) → List SpawnInfo × ℕ →
    List SpawnInfo × ℕ
  | [], _, st => st
  | inf :: rest, idxss, st => spawnAll simTime rest idxss.tail (spawnOne simTime inf idxss.headI st)

/-- Spawn entry point (source lines 332-377): return at once when no
capacity remains, otherwise sample selections with minN = replace and
maxN = maxCars and run the spawn loop. -/
def spawn (numberOfVehicles : ℤ) (simTime : ℚ) (spawnedV : List SpawnInfo) (nextId : ℕ)
    (sols : List Pt) (replace : ℤ) (rng : Rng) : List SpawnInfo × ℕ :=
  let maxCars : ℤ := numberOfVehicles - spawnedV.length
  if maxCars ≤ 0 then (spawnedV, nextId)
  else spawnAll simTime (sampleRoads replace maxCars sols rng) rng.idxChoices (spawnedV, nextId)

/-- Mutable state of the action relevant to Step: the time of the last
evaluation (-1 after Start, source line 120), the active records and
the next entity-repository id. -/
structure SwarmState where
  lastTime : ℚ
  spawnedV : List SpawnInfo
  nextId : ℕ
deriving DecidableEq

/-- State established by Start (source lines 111-137): no vehicles yet
and lastTime = -1, the "never evaluated" sentinel. -/
def startState : SwarmState := { lastTime := -1, spawnedV := [], nextId := 0 }

/-- Step (source lines 139-171): the pipeline (ellipse resampling,
intersection, sampling, despawn then spawn with the despawn count as
replacement quota) runs only when lastTime < 0 or the absolute time
advance exceeds TIME_INTERVAL; otherwise nothing changes.  The
geometric front half (tree intersection and point finding, implemented
outside this file's source) is represented by the sols input. -/
def Step (cfg : Cfg) (cPos : Pose) (sols : List Pt) (rng : Rng) (simTime : ℚ)
    (st : SwarmState) : SwarmState :=
  if st.lastTime < 0 ∨ |simTime - st.lastTime| > TIME_INTERVAL then
    let d := despawn cfg cPos st.spawnedV
    let sp := spawn cfg.numberOfVehicles simTime d.1 st.nextId sols (d.2 : ℤ) rng
    { lastTime := simTime, spawnedV := sp.1, nextId := sp.2 }
  else st

/-- Pairwise spacing property of the active records: any two records on
the same road and lane are separated by more than VHEICLE_DISTANCE
along arc length. -/
def WellSpaced (recs : List SpawnInfo) : Prop :=
  recs.Pairwise fun a b =>
    a.roadID = b.roadID → a.lane = b.lane → |a.s - b.s| > VHEICLE_DISTANCE

/-- Follows the claim's words, for comparison with distributeLanes: a
lane distribution over the solution points in which every point is
used, each point with at least one driving lane receives one lane plus
an extra-lane count within [0, min(remaining, available)] and the
remaining pool is decremented by the extra lanes, while each point with
zero driving lanes contributes nothing and returns its share to the
pool.  The final index is the leftover pool. -/
inductive LaneDistributionSpec : ℤ → List Pt → List SelectInfo → ℤ → Prop
  | nil (L : ℤ) : LaneDistributionSpec L [] [] L
  | zero (L : ℤ) (pt : Pt) (rest : List Pt) (info : List SelectInfo) (Lf : ℤ)
      (hz : pt.drivingLanes.length = 0)
      (h : LaneDistributionSpec (L + 1) rest info Lf) :
      LaneDistributionSpec L (pt :: rest) info Lf
  | good (L : ℤ) (pt : Pt) (rest : List Pt) (info : List SelectInfo) (Lf extra : ℤ)
      (hp : 0 < pt.drivingLanes.length)
      (h0 : 0 ≤ extra) (h1 : extra ≤ min L (pt.drivingLanes.length : ℤ))
      (h : LaneDistributionSpec (L - extra) rest info Lf) :
      LaneDistributionSpec L (pt :: rest) ({ pt := pt, nLanes := 1 + extra } :: info) Lf

/-- Straight-geometry chopping loop of createRoadSegments (source lines
185-205): starting from the road-s offset of the geometry (GetS), emit
[sI, sF] chunks of size minSize while sI < GetLength, the last chunk
clamped to GetLength.  The 0 < minSize guard reflects Start's guarantee
minSize_ > 0 (source lines 126-127) and makes the loop terminating. -/
def lineChunks (dist len minSize : ℚ) : List (ℚ × ℚ) :=
  if h : 0 < minSize ∧ dist < len then
    let ds := if dist + minSize > len then len else dist + minSize
    (dist, ds) :: lineChunks ds len minSize
  else []
termination_by (⌈(len - dist) / minSize⌉).toNat
decreasing_by
  obtain ⟨hm, hd⟩ := h
  have hR : 0 < ⌈(len - dist) / minSize⌉ := Int.ceil_pos.mpr (div_pos (by linarith) hm)
  by_cases hc : dist + minSize > len
  · rw [dif_pos hc, sub_self, zero_div, Int.ceil_zero]
    omega
  · rw [dif_neg hc]
    have hne : minSize ≠ 0 := ne_of_gt hm
    have heq : (len - (dist + minSize)) / minSize = (len - dist) / minSize - 1 := by
      field_simp
      ring
    rw [heq, Int.ceil_sub_one]
    omega

/-- Angular loop of createEllipseSegments (source lines 217-243): from
the half-step seam offset -pi/72, march in steps of pi/36 up to
2 pi - pi/72, clamping the final step; each emitted pair is the angular
interval of one triangle.  Angles are in multiples of pi.  The
semi-axes only enter the vertex coordinates through paramEllipse and
the tangent intersection, not the angular segmentation modelled here. -/
def ellipseAngles (alpha : ℚ) : List (ℚ × ℚ) :=
  if h : alpha < 2 - 1 / 72 then
    let da := if alpha + 1 / 36 > 2 - 1 / 72 then 2 - 1 / 72 else alpha + 1 / 36
    (alpha, da) :: ellipseAngles da
  else []
termination_by (⌈((2 - 1 / 72) - alpha) / (1 / 36)⌉).toNat
decreasing_by
  have hm : (0:ℚ) < 1 / 36 := by norm_num
  have hR : 0 < ⌈((2 - 1 / 72) - alpha) / (1 / 36)⌉ :=
    Int.ceil_pos.mpr (div_pos (by linarith) hm)
  by_cases hc : alpha + 1 / 36 > 2 - 1 / 72
  · rw [dif_pos hc, sub_self, zero_div, Int.ceil_zero]
    omega
  · rw [dif_neg hc]
    have heq : ((2 - 1 / 72) - (alpha + 1 / 36)) / (1 / 36 : ℚ)
        = ((2 - 1 / 72) - alpha) / (1 / 36) - 1 := by
      norm_num
      ring
    rw [heq, Int.ceil_sub_one]
    omega

/-- Angular segments emitted by createEllipseSegments for the given
semi-axes; the loop angles do not depend on them. -/
def createEllipseSegmentsAngles (SMjA SMnA : ℚ) : List (ℚ × ℚ) :=
  ellipseAngles (-(1 / 72))

/-- Angular (or arc-length) width of one emitted segment. -/
def segLen (p : ℚ × ℚ) : ℚ := p.2 - p.1

/-- Total width of a list of emitted segments. -/
def segSum (l : List (ℚ × ℚ)) : ℚ := (l.map segLen).sum

/-- Heading offset selected by spawn for a chosen lane id
(source line 364): 0 for a negative lane id, 1 otherwise. -/
def hdg_offset (laneID : ℤ) : ℤ := if laneID < 0 then 0 else 1

/-- Heading of the instantiated vehicle (createVehicle line 249,
measured in multiples of pi): the position's heading plus the offset
times M_PI. -/
def createVehicleHeading (h : ℚ) (offset : ℤ) : ℚ := h + offset * M_PI

/-- Heading a vehicle spawned on a given lane receives (spawn line 364
feeding createVehicle line 249). -/
def spawnHeading (h : ℚ) (laneID : ℤ) : ℚ := createVehicleHeading h (hdg_offset laneID)

end SwarmTraffic

namespace SwarmTraffic

/-! ## Helper lemmas about despawn -/

/-- Every record surviving a despawn pass stems from an input record
with the same vehicle id whose decision kept it. -/
theorem despawn_mem (cfg : Cfg) (cp : Pose) (recs : List SpawnInfo) (r' : SpawnInfo)
    (h : r' ∈ (despawn cfg cp recs).1) :
    ∃ r ∈ recs, r'.vehicleID = r.vehicleID ∧
      despawnDecide (e0At cfg cp r) (e1At cfg cp r) r.outMidAreaCount
        = some r'.outMidAreaCount := by
  induction recs with
  | nil => simp [despawn] at h
  | cons a rest ih =>
    simp only [despawn] at h
    cases hd : despawnDecide (e0At cfg cp a) (e1At cfg cp a) a.outMidAreaCount with
    | none =>
      rw [hd] at h
      obtain ⟨r, hr, h1, h2⟩ := ih h
      exact ⟨r, List.mem_cons_of_mem _ hr, h1, h2⟩
    | some k =>
      rw [hd] at h
      rcases List.mem_cons.mp h with h | h
      · subst h
        exact ⟨a, List.mem_cons_self _ _, rfl, hd⟩
      · obtain ⟨r, hr, h1, h2⟩ := ih h
        exact ⟨r, List.mem_cons_of_mem _ hr, h1, h2⟩

/-- Every input record whose decision keeps it appears, with its
updated counter, among the survivors of the despawn pass. -/
theorem despawn_keep (cfg : Cfg) (cp : Pose) (recs : List SpawnInfo) (r : SpawnInfo) (k : ℕ)
    (hmem : r ∈ recs)
    (hd : despawnDecide (e0At cfg cp r) (e1At cfg cp r) r.outMidAreaCount = some k) :
    { r with outMidAreaCount := k } ∈ (despawn cfg cp recs).1 := by
  induction recs with
  | nil => simp at hmem
  | cons a rest ih =>
    simp only [despawn]
    rcases List.mem_cons.mp hmem with h | h
    · subst h
      rw [hd]
      exact List.mem_cons_self _ _
    · cases hda : despawnDecide (e0At cfg cp a) (e1At cfg cp a) a.outMidAreaCount with
      | none => exact ih h
      | some k' => exact List.mem_cons_of_mem _ (ih h)

/-- A record strictly beyond the outer tolerance is decided deleted,
whatever its counter and mid membership. -/
theorem despawnDecide_outer (e0 e1 : ℚ) (c : ℕ) (h : e0 > 1 / 1000) :
    despawnDecide e0 e1 c = none := by
  simp only [despawnDecide, if_pos h]

/-! ## C1 -/

/-- C1, counterexample: a vehicle exactly on the outer boundary (signed
outer membership equal to 0, hence non-negative) is not removed on the
next evaluation; despawn keeps its record and merely increments the
stale counter, contradicting the claim that any non-negative outer
membership forces unconditional removal. -/
theorem despawn_outer_boundary_kept :
    e0At (mkCfg 2 4 4 10) ⟨0, 0, 1, 0⟩ ⟨0, 0, 0, 0, 4, 0, 0, 0⟩ = 0 ∧
      (despawn (mkCfg 2 4 4 10) ⟨0, 0, 1, 0⟩ [⟨0, 0, 0, 0, 4, 0, 0, 0⟩]).1
        = [⟨0, 1, 0, 0, 4, 0, 0, 0⟩] := by
  constructor
  · norm_num [e0At, ellipse, mkCfg]
  · norm_num [despawn, despawnDecide, e0At, e1At, ellipse, mkCfg, USELESS_THRESHOLD]

/-- C1, amended: an active record is removed unconditionally,
regardless of its stale counter, exactly when the signed outer-ellipse
membership of its vehicle exceeds the 0.001 tolerance; a vehicle at or
barely outside the outer boundary (membership in [0, 0.001]) instead
falls into the stale-count branch. -/
theorem despawn_beyond_outer_removed (cfg : Cfg) (cp : Pose) (recs : List SpawnInfo)
    (r : SpawnInfo) (hmem : r ∈ recs)
    (hnd : (recs.map SpawnInfo.vehicleID).Nodup)
    (h0 : e0At cfg cp r > 1 / 1000) :
    ∀ r' ∈ (despawn cfg cp recs).1, r'.vehicleID ≠ r.vehicleID := by
  intro r' hr' heq
  obtain ⟨r0, hr0, hid, hdec⟩ := despawn_mem cfg cp recs r' hr'
  have : r0 = r := List.inj_on_of_nodup_map hnd hr0 hmem (by rw [← hid, heq])
  subst this
  rw [despawnDecide_outer _ _ _ h0] at hdec
  exact Option.noConfusion hdec

/-- C1, witness: a concrete vehicle strictly outside the outer ellipse
is removed by the next despawn pass — its id no longer occurs among the
survivors. -/
theorem despawn_beyond_outer_removed_witness :
    ((despawn (mkCfg 2 4 4 10) ⟨0, 0, 1, 0⟩ [⟨3, 0, 0, 0, 5, 0, 0, 0⟩]).1.map
      SpawnInfo.vehicleID).count 3 = 0 := by
  rw [List.count_eq_zero]
  intro hmem
  rw [List.mem_map] at hmem
  obtain ⟨r', hr', hid⟩ := hmem
  exact despawn_beyond_outer_removed (mkCfg 2 4 4 10) ⟨0, 0, 1, 0⟩ _ _
    (List.mem_singleton.mpr rfl) (by simp)
    (by norm_num [e0At, ellipse, mkCfg]) r' hr' hid

/-! ## C2 -/

/-- C2: for a record whose vehicle is inside the outer ellipse, an
evaluation finding it at or outside the mid ellipse removes it exactly
when the stale counter has reached the patience threshold 5, and
otherwise keeps it with the counter incremented (so it survives up to 5
consecutive such evaluations); an evaluation finding it well inside the
mid ellipse keeps it with the counter reset to 0. -/
theorem despawn_mid_hysteresis (cfg : Cfg) (cp : Pose) (recs : List SpawnInfo)
    (r : SpawnInfo) (hmem : r ∈ recs) (h0 : e0At cfg cp r < 0) :
    (0 ≤ e1At cfg cp r →
      (despawnDecide (e0At cfg cp r) (e1At cfg cp r) r.outMidAreaCount = none
        ↔ USELESS_THRESHOLD ≤ r.outMidAreaCount)
      ∧ (r.outMidAreaCount < USELESS_THRESHOLD →
          { r with outMidAreaCount := r.outMidAreaCount + 1 } ∈ (despawn cfg cp recs).1))
    ∧ (e1At cfg cp r < 0 →
        { r with outMidAreaCount := 0 } ∈ (despawn cfg cp recs).1) := by
  have hne : ¬ (e0At cfg cp r > 1 / 1000) := by linarith
  have hU : USELESS_THRESHOLD = 5 := rfl
  constructor
  · intro h1
    have hbr : e1At cfg cp r > 1 / 1000 ∨ (0 ≤ e1At cfg cp r ∧ e1At cfg cp r ≤ 1 / 1000) := by
      rcases le_or_lt (e1At cfg cp r) (1 / 1000) with h | h
      · exact Or.inr ⟨h1, h⟩
      · exact Or.inl h
    constructor
    · simp only [despawnDecide, if_neg hne, if_pos hbr]
      constructor
      · intro h
        by_contra hlt
        rw [if_neg (by omega)] at h
        exact Option.noConfusion h
      · intro h
        rw [if_pos (by omega)]
    · intro hlt
      refine despawn_keep cfg cp recs r _ hmem ?_
      simp only [despawnDecide, if_neg hne, if_pos hbr]
      rw [if_neg (by omega)]
  · intro h1
    refine despawn_keep cfg cp recs r _ hmem ?_
    have hbr : ¬ (e1At cfg cp r > 1 / 1000 ∨ (0 ≤ e1At cfg cp r ∧ e1At cfg cp r ≤ 1 / 1000)) := by
      push_neg
      exact ⟨by linarith, fun h => absurd h (by linarith)⟩
    simp only [despawnDecide, if_neg hne, if_neg hbr]

/-- C2, witness: a concrete record inside the outer ellipse but outside
the mid one, with stale counter 0, survives the evaluation with its
counter incremented to 1. -/
theorem despawn_mid_hysteresis_witness :
    { (⟨0, 0, 0, 0, 7/2, 0, 0, 0⟩ : SpawnInfo) with outMidAreaCount := 0 + 1 }
      ∈ (despawn (mkCfg 2 4 4 10) ⟨0, 0, 1, 0⟩ [⟨0, 0, 0, 0, 7/2, 0, 0, 0⟩]).1 :=
  ((despawn_mid_hysteresis (mkCfg 2 4 4 10) ⟨0, 0, 1, 0⟩ _ _
      (List.mem_singleton.mpr rfl)
      (by norm_num [e0At, ellipse, mkCfg])).1
    (by norm_num [e1At, ellipse, mkCfg])).2
    (by decide)

/-! ## Helper lemmas about sampling and spacing -/

/-- Value drawn by uniformInt lies within the requested interval
whenever the interval is non-degenerate. -/
theorem uniformInt_mem (a b : ℤ) (r : ℕ) (h : a ≤ b) :
    a ≤ uniformInt a b r ∧ uniformInt a b r ≤ b := by
  unfold uniformInt
  have hk : ((b - a + 1).toNat : ℤ) = b - a + 1 := Int.toNat_of_nonneg (by omega)
  have hpos : 0 < (b - a + 1).toNat := by omega
  have hlt : r % (b - a + 1).toNat < (b - a + 1).toNat := Nat.mod_lt _ hpos
  omega

/-- Spacing check read positively: it succeeds exactly when every
active record on the candidate road and lane is strictly farther than
the minimum spacing along arc length. -/
theorem ensureDistance_eq_true (recs : List SpawnInfo) (roadId : ℤ) (s : ℚ) (lane : ℤ) :
    ensureDistance recs roadId s lane = true
      ↔ ∀ r ∈ recs, r.lane = lane → r.roadID = roadId → |r.s - s| > VHEICLE_DISTANCE := by
  simp only [ensureDistance, List.all_eq_true, Bool.not_eq_true', decide_eq_false_iff_not,
    not_and, not_le, gt_iff_lt]

/-- Spacing check read negatively: it fails exactly when some active
record on the candidate road and lane lies within the minimum spacing. -/
theorem ensureDistance_eq_false (recs : List SpawnInfo) (roadId : ℤ) (s : ℚ) (lane : ℤ) :
    ensureDistance recs roadId s lane = false
      ↔ ∃ r ∈ recs, r.lane = lane ∧ r.roadID = roadId ∧ |r.s - s| ≤ VHEICLE_DISTANCE := by
  rw [← Bool.not_eq_true, ensureDistance_eq_true]
  push_neg
  constructor
  · rintro ⟨r, hr, h⟩
    rcases h with ⟨h1, h2, h3⟩
    exact ⟨r, hr, h1, h2, h3⟩
  · rintro ⟨r, hr, h1, h2, h3⟩
    exact ⟨r, hr, h1, h2, h3⟩

/-- Appending a record that passes the spacing check preserves the
pairwise spacing property. -/
theorem wellSpaced_append (recs : List SpawnInfo) (nid : ℕ) (pt : Pt) (laneID : ℤ)
    (simTime : ℚ) (hw : WellSpaced recs)
    (hd : ensureDistance recs pt.roadId pt.s laneID = true) :
    WellSpaced (recs ++ [newSpawnInfo nid pt laneID simTime]) := by
  rw [WellSpaced, List.pairwise_append]
  refine ⟨hw, List.pairwise_singleton _ _, ?_⟩
  intro a ha b hb
  simp only [List.mem_singleton] at hb
  subst hb
  intro hroad hlane
  have h := (ensureDistance_eq_true recs pt.roadId pt.s laneID).mp hd a ha
  simp only [newSpawnInfo] at hroad hlane ⊢
  exact h hlane hroad

/-- Inner spawn loop preserves the pairwise spacing property: each
committed candidate has just passed ensureDistance against the current
records. -/
theorem spawnOne_spacing (simTime : ℚ) (inf : SelectInfo) :
    ∀ (idxs : List ℕ) (st : List SpawnInfo × ℕ), WellSpaced st.1 →
      WellSpaced (spawnOne simTime inf idxs st).1 := by
  intro idxs
  induction idxs with
  | nil => intro st h; exact h
  | cons i is ih =>
    intro st h
    simp only [spawnOne, List.foldl_cons] at ih ⊢
    apply ih
    cases hg : inf.pt.drivingLanes.get? i with
    | none => simpa [hg] using h
    | some laneID =>
      simp only [hg]
      by_cases hd : ensureDistance st.1 inf.pt.roadId inf.pt.s laneID = true
      · rw [if_pos hd]
        exact wellSpaced_append st.1 st.2 inf.pt laneID simTime h hd
      · rw [if_neg hd]
        exact h

/-- Outer spawn loop preserves the pairwise spacing property. -/
theorem spawnAll_spacing (simTime : ℚ) :
    ∀ (info : List SelectInfo) (idxss : List (List ℕ)) (st : List SpawnInfo × ℕ),
      WellSpaced st.1 → WellSpaced (spawnAll simTime info idxss st).1 := by
  intro info
  induction info with
  | nil => intro idxss st h; exact h
  | cons inf rest ih =>
    intro idxss st h
    exact ih _ _ (spawnOne_spacing simTime inf _ st h)

/-! ## C3 -/

/-- C3: the requested spawn count is drawn from
[replacementQuota, remainingCapacity] and lies in that interval
whenever it is non-degenerate; when remainingCapacity < replacementQuota
the sampler returns no selection and the spawn call creates no vehicle
and adds no record, returning the state untouched. -/
theorem sampleRoads_count_bounds (minN maxN replace numberOfVehicles : ℤ) (r : ℕ)
    (sols : List Pt) (rng : Rng) (simTime : ℚ) (spawnedV : List SpawnInfo) (nextId : ℕ) :
    (minN ≤ maxN → minN ≤ uniformInt minN maxN r ∧ uniformInt minN maxN r ≤ maxN)
    ∧ (maxN < minN → sampleRoads minN maxN sols rng = [])
    ∧ (0 ≤ replace → numberOfVehicles - (spawnedV.length : ℤ) < replace →
        spawn numberOfVehicles simTime spawnedV nextId sols replace rng
          = (spawnedV, nextId)) := by
  refine ⟨uniformInt_mem minN maxN r, ?_, ?_⟩
  · intro h
    simp only [sampleRoads, if_pos h]
  · intro h0 hlt
    simp only [spawn]
    by_cases hm : numberOfVehicles - (spawnedV.length : ℤ) ≤ 0
    · rw [if_pos hm]
    · rw [if_neg hm]
      have hs : sampleRoads replace (numberOfVehicles - (spawnedV.length : ℤ)) sols rng = [] := by
        simp only [sampleRoads, if_pos hlt]
      rw [hs]
      rfl

/-- C3, witness: a concrete non-degenerate draw lies in its interval,
and a concrete spawn call with replacement quota above the remaining
capacity returns its state untouched. -/
theorem sampleRoads_count_bounds_witness :
    ((0 : ℤ) ≤ uniformInt 0 2 5 ∧ uniformInt 0 2 5 ≤ 2)
    ∧ spawn 1 0 [] 0 [] 2 ⟨0, [], [], []⟩ = ([], 0) :=
  ⟨(sampleRoads_count_bounds 0 2 2 1 5 [] ⟨0, [], [], []⟩ 0 [] 0).1 (by decide),
    (sampleRoads_count_bounds 0 2 2 1 5 [] ⟨0, [], [], []⟩ 0 [] 0).2.2 (by decide) (by decide)⟩

/-! ## C4 -/

/-- C4: a spawn candidate is rejected exactly when some active record
on the same road and lane lies within the minimum spacing of it along
arc length; consequently, when every pair of active records sharing
road and lane is separated by more than the minimum spacing before a
spawn call, the same holds after it. -/
theorem spawn_spacing_invariant (recs : List SpawnInfo) (roadId : ℤ) (s : ℚ) (lane : ℤ)
    (numberOfVehicles : ℤ) (simTime : ℚ) (nextId : ℕ) (sols : List Pt) (replace : ℤ)
    (rng : Rng) :
    (ensureDistance recs roadId s lane = false
      ↔ ∃ r ∈ recs, r.lane = lane ∧ r.roadID = roadId ∧ |r.s - s| ≤ VHEICLE_DISTANCE)
    ∧ (WellSpaced recs →
        WellSpaced (spawn numberOfVehicles simTime recs nextId sols replace rng).1) := by
  constructor
  · exact ensureDistance_eq_false recs roadId s lane
  · intro hw
    simp only [spawn]
    by_cases hm : numberOfVehicles - (recs.length : ℤ) ≤ 0
    · rw [if_pos hm]
      exact hw
    · rw [if_neg hm]
      exact spawnAll_spacing _ _ _ _ hw

/-- C4, witness: a concrete spawn call from an empty, trivially
well-spaced record list yields a well-spaced record list. -/
theorem spawn_spacing_invariant_witness :
    WellSpaced (spawn 2 0 [] 0 [⟨1, 0, 0, 0, [-1]⟩] 0 ⟨0, [], [], [[0]]⟩).1 :=
  (spawn_spacing_invariant [] 1 0 (-1) 2 0 0 [⟨1, 0, 0, 0, [-1]⟩] 0 ⟨0, [], [], [[0]]⟩).2
    (by simp [WellSpaced])

/-! ## C5 -/

/-- C5, counterexample: with the last evaluation at time 0, a Step call
at simTime exactly 0.1 — an advance of at least the fixed interval, as
the claim reads — does not run the pipeline: the state, in particular
lastTime, is unchanged, contradicting the claimed iff. -/
theorem Step_exact_interval_no_op :
    Step (mkCfg 2 4 4 10) ⟨0, 0, 1, 0⟩ [] ⟨0, [], [], []⟩ (1/10) ⟨0, [], 0⟩ = ⟨0, [], 0⟩
    ∧ (1/10 : ℚ) - (0 : ℚ) = TIME_INTERVAL
    ∧ (Step (mkCfg 2 4 4 10) ⟨0, 0, 1, 0⟩ [] ⟨0, [], [], []⟩ (1/10) ⟨0, [], 0⟩).lastTime
        ≠ 1/10 := by
  have hc : ¬ (((⟨0, [], 0⟩ : SwarmState).lastTime < 0)
      ∨ |(1/10 : ℚ) - (⟨0, [], 0⟩ : SwarmState).lastTime| > TIME_INTERVAL) := by
    push_neg
    constructor
    · norm_num
    · rw [show ((1:ℚ)/10 - (⟨0, [], 0⟩ : SwarmState).lastTime) = 1/10 by norm_num,
        abs_of_nonneg (by norm_num)]
      norm_num [TIME_INTERVAL]
  refine ⟨?_, by norm_num [TIME_INTERVAL], ?_⟩
  · simp only [Step, if_neg hc]
  · simp only [Step, if_neg hc]
    norm_num

/-- C5, amended: a Step call runs the full pipeline (despawn, then
spawn with the despawn count as replacement quota, recording simTime as
the last evaluation time) if and only if the stored last-evaluation
time is negative — as after Start, which sets it to -1 — or simTime
differs from it by strictly more than the 0.1-second interval;
otherwise the call is a no-op that changes no state. -/
theorem Step_throttle (cfg : Cfg) (cPos : Pose) (sols : List Pt) (rng : Rng)
    (simTime : ℚ) (st : SwarmState) :
    startState.lastTime < 0
    ∧ ((st.lastTime < 0 ∨ |simTime - st.lastTime| > TIME_INTERVAL) →
        Step cfg cPos sols rng simTime st
          = { lastTime := simTime
              spawnedV := (spawn cfg.numberOfVehicles simTime (despawn cfg cPos st.spawnedV).1
                st.nextId sols ((despawn cfg cPos st.spawnedV).2 : ℤ) rng).1
              nextId := (spawn cfg.numberOfVehicles simTime (despawn cfg cPos st.spawnedV).1
                st.nextId sols ((despawn cfg cPos st.spawnedV).2 : ℤ) rng).2 })
    ∧ (0 ≤ st.lastTime → |simTime - st.lastTime| ≤ TIME_INTERVAL →
        Step cfg cPos sols rng simTime st = st) := by
  refine ⟨by norm_num [startState], ?_, ?_⟩
  · intro h
    simp only [Step, if_pos h]
  · intro h1 h2
    have hc : ¬ (st.lastTime < 0 ∨ |simTime - st.lastTime| > TIME_INTERVAL) := by
      push_neg
      exact ⟨not_lt.mp (fun hlt => absurd h1 (not_le.mpr hlt)), h2⟩
    simp only [Step, if_neg hc]

/-- C5, witness: from the Start state (lastTime = -1) the first Step
call runs the pipeline and records its simTime. -/
theorem Step_throttle_witness :
    Step (mkCfg 2 4 4 10) ⟨0, 0, 1, 0⟩ [] ⟨0, [], [], []⟩ 0 startState
      = { lastTime := 0
          spawnedV := (spawn (mkCfg 2 4 4 10).numberOfVehicles 0
            (despawn (mkCfg 2 4 4 10) ⟨0, 0, 1, 0⟩ startState.spawnedV).1 startState.nextId []
            ((despawn (mkCfg 2 4 4 10) ⟨0, 0, 1, 0⟩ startState.spawnedV).2 : ℤ)
            ⟨0, [], [], []⟩).1
          nextId := (spawn (mkCfg 2 4 4 10).numberOfVehicles 0
            (despawn (mkCfg 2 4 4 10) ⟨0, 0, 1, 0⟩ startState.spawnedV).1 startState.nextId []
            ((despawn (mkCfg 2 4 4 10) ⟨0, 0, 1, 0⟩ startState.spawnedV).2 : ℤ)
            ⟨0, [], [], []⟩).2 } :=
  (Step_throttle (mkCfg 2 4 4 10) ⟨0, 0, 1, 0⟩ [] ⟨0, [], [], []⟩ 0 startState).2.1
    (Or.inl (by norm_num [startState]))

/-! ## C6 -/

/-- C6, counterexample: a vehicle spawned on lane id -1 receives the
position's heading unmodified rather than offset by pi (headings are in
units of pi, so M_PI is 1 and the claimed heading at heading 0 would be
0 + M_PI). -/
theorem spawnHeading_neg_lane_unmodified :
    spawnHeading 0 (-1) = 0 ∧ (0 : ℚ) ≠ 0 + M_PI := by
  constructor
  · norm_num [spawnHeading, createVehicleHeading, hdg_offset, M_PI]
  · norm_num [M_PI]

/-- C6, amended: the spawned vehicle's heading equals the position's
heading offset by pi exactly when the chosen lane id is non-negative,
and equals the position's heading unmodified when the lane id is
negative. -/
theorem spawnHeading_offset (h : ℚ) (laneID : ℤ) :
    (laneID < 0 → spawnHeading h laneID = h)
    ∧ (0 ≤ laneID → spawnHeading h laneID = h + M_PI) := by
  constructor
  · intro hl
    simp [spawnHeading, createVehicleHeading, hdg_offset, if_pos hl]
  · intro hl
    simp [spawnHeading, createVehicleHeading, hdg_offset, if_neg (not_lt.mpr hl)]

/-- C6, witness: one concrete lane id on each side of zero. -/
theorem spawnHeading_offset_witness :
    spawnHeading 0 (-1) = 0 ∧ spawnHeading 0 1 = 0 + M_PI :=
  ⟨(spawnHeading_offset 0 (-1)).1 (by decide), (spawnHeading_offset 0 1).2 (by decide)⟩

/-! ## Helper lemmas about the chopping loops -/

/-- Unfolding of the ellipse angular loop below the closing angle. -/
theorem ellipseAngles_pos_eq (a : ℚ) (ha : a < 2 - 1 / 72) :
    ellipseAngles a
      = (a, if a + 1 / 36 > 2 - 1 / 72 then 2 - 1 / 72 else a + 1 / 36)
        :: ellipseAngles (if a + 1 / 36 > 2 - 1 / 72 then 2 - 1 / 72 else a + 1 / 36) := by
  rw [ellipseAngles]
  simp only [dite_eq_ite, if_pos ha]

/-- Unfolding of the ellipse angular loop at or beyond the closing
angle. -/
theorem ellipseAngles_neg_eq (a : ℚ) (ha : ¬ a < 2 - 1 / 72) :
    ellipseAngles a = [] := by
  rw [ellipseAngles]
  simp only [dite_eq_ite, if_neg ha]

/-- Widths add segment by segment. -/
theorem segSum_cons (p : ℚ × ℚ) (l : List (ℚ × ℚ)) :
    segSum (p :: l) = segLen p + segSum l := by
  simp [segSum]

/-- Over any start angle, the angular loop tiles exactly the remaining
interval up to the closing angle, every emitted segment having positive
width of at most the angular step. -/
theorem ellipseAngles_cover (n : ℕ) :
    ∀ a : ℚ, a < 2 - 1 / 72 → 2 - 1 / 72 - a ≤ n * (1 / 36) →
      segSum (ellipseAngles a) = 2 - 1 / 72 - a
      ∧ ∀ p ∈ ellipseAngles a, 0 < segLen p ∧ segLen p ≤ 1 / 36 := by
  induction n with
  | zero =>
    intro a ha hb
    exfalso
    push_cast at hb
    linarith
  | succ n ih =>
    intro a ha hb
    by_cases hc : a + 1 / 36 > 2 - 1 / 72
    · rw [ellipseAngles_pos_eq a ha, if_pos hc, ellipseAngles_neg_eq _ (lt_irrefl _)]
      constructor
      · simp [segSum_cons, segSum, segLen]
      · intro p hp
        rw [List.mem_singleton] at hp
        subst hp
        exact ⟨by simp only [segLen]; linarith, by simp only [segLen]; linarith⟩
    · push_neg at hc
      rw [ellipseAngles_pos_eq a ha, if_neg (not_lt.mpr hc)]
      rcases lt_or_eq_of_le hc with hlt | heq
      · have hrec := ih (a + 1 / 36) hlt (by push_cast at hb ⊢; linarith)
        constructor
        · rw [segSum_cons, hrec.1]
          simp only [segLen]
          ring
        · intro p hp
          rcases List.mem_cons.mp hp with h | h
          · subst h
            exact ⟨by simp only [segLen]; linarith, by simp only [segLen]; linarith⟩
          · exact hrec.2 p h
      · rw [heq, ellipseAngles_neg_eq _ (lt_irrefl _)]
        constructor
        · rw [segSum_cons]
          simp only [segLen, segSum, List.map_nil, List.sum_nil]
          linarith
        · intro p hp
          rw [List.mem_singleton] at hp
          subst hp
          exact ⟨by simp only [segLen]; linarith, by simp only [segLen]; linarith⟩

/-! ## C7 -/

/-- C7: the straight-span chopping loop runs its road-s cursor, which
starts at the geometry's road-s offset GetS, against the geometry's own
length.  A straight span at road offset 50 with length 30 should, per
the claim, be covered by contiguous chunks over [50, 80]; the loop
instead emits nothing at all, because its entry test compares 50
against 30. -/
theorem lineChunks_offset_span_empty : lineChunks 50 30 1 = [] := by
  rw [lineChunks]
  norm_num

/-! ## C8 -/

/-- C8: for any positive semi-axis pair, the emitted angular segments
start at the half-step seam offset -pi/72, every segment has positive
width — in particular there is no zero-length closing segment — of at
most the angular step pi/36, and the widths sum to exactly one full
revolution 2 pi (angles in units of pi, tolerance not needed). -/
theorem createEllipseSegments_closure (SMjA SMnA : ℚ) (hA : 0 < SMjA) (hB : 0 < SMnA) :
    ((createEllipseSegmentsAngles SMjA SMnA).head?.map Prod.fst = some (-(1 / 72)))
    ∧ segSum (createEllipseSegmentsAngles SMjA SMnA) = 2
    ∧ ∀ p ∈ createEllipseSegmentsAngles SMjA SMnA, 0 < segLen p ∧ segLen p ≤ 1 / 36 := by
  have ha : (-(1 / 72) : ℚ) < 2 - 1 / 72 := by norm_num
  have hcov := ellipseAngles_cover 72 (-(1 / 72)) ha (by push_cast; norm_num)
  refine ⟨?_, ?_, ?_⟩
  · rw [createEllipseSegmentsAngles, ellipseAngles_pos_eq _ ha]
    rfl
  · rw [createEllipseSegmentsAngles, hcov.1]
    norm_num
  · intro p hp
    rw [createEllipseSegmentsAngles] at hp
    exact hcov.2 p hp

/-- C8, witness: the unit-radii instance, seam offset and total width. -/
theorem createEllipseSegments_closure_witness :
    ((createEllipseSegmentsAngles 1 1).head?.map Prod.fst = some (-(1 / 72)))
    ∧ segSum (createEllipseSegmentsAngles 1 1) = 2 :=
  ⟨(createEllipseSegments_closure 1 1 (by norm_num) (by norm_num)).1,
    (createEllipseSegments_closure 1 1 (by norm_num) (by norm_num)).2.1⟩

/-! ## C9 -/

/-- distributeLanes meets the claimed distribution policy whenever the
pool starts positive, as it does in the fewer-solutions branch. -/
theorem distributeLanes_spec (pts : List Pt) :
    ∀ (L : ℤ) (draws : List ℕ), 0 < L →
      LaneDistributionSpec L pts (distributeLanes pts L draws)
        (distributeLanesFinal pts L draws) := by
  induction pts with
  | nil =>
    intro L draws hL
    exact LaneDistributionSpec.nil L
  | cons pt rest ih =>
    intro L draws hL
    by_cases hz : pt.drivingLanes.length = 0
    · simp only [distributeLanes, distributeLanesFinal, if_pos hz]
      exact LaneDistributionSpec.zero L pt rest _ _ hz (ih (L + 1) draws (by omega))
    · simp only [distributeLanes, distributeLanesFinal, if_neg hz]
      simp only [if_pos hL]
      have hm : 1 ≤ min L (pt.drivingLanes.length : ℤ) := by
        have : 1 ≤ (pt.drivingLanes.length : ℤ) := by omega
        omega
      have hd := uniformInt_mem 0 (min L (pt.drivingLanes.length : ℤ)) draws.headI (by omega)
      set d := uniformInt 0 (min L (pt.drivingLanes.length : ℤ)) draws.headI with hdd
      set extra : ℤ := if d = 0 then 0 else d - 1 with he
      have hb : 0 ≤ extra ∧ extra ≤ min L (pt.drivingLanes.length : ℤ) ∧ 0 < L - extra := by
        rw [he]
        by_cases h0 : d = 0
        · rw [if_pos h0]
          omega
        · rw [if_neg h0]
          omega
      exact LaneDistributionSpec.good L pt rest _ _ extra
        (by omega) hb.1 hb.2.1 (ih (L - extra) draws.tail hb.2.2)

/-- C9: when fewer solution points are found than the drawn target
spawn count, the sampler follows the claimed distribution policy: every
solution point is visited, each point with at least one driving lane
receives at least one lane — one plus an extra-lane count within
[0, min(remaining, available)], the remaining pool being decremented by
the extra lanes assigned — and each point with zero driving lanes
contributes nothing and returns its share to the remaining pool. -/
theorem sampleRoads_few_solutions (minN maxN : ℤ) (sols : List Pt) (rng : Rng)
    (hle : minN ≤ maxN)
    (hfew : (sols.length : ℤ) < uniformInt minN maxN rng.countDraw) :
    LaneDistributionSpec (uniformInt minN maxN rng.countDraw - sols.length) sols
      (sampleRoads minN maxN sols rng)
      (distributeLanesFinal sols (uniformInt minN maxN rng.countDraw - sols.length)
        rng.laneDraws) := by
  have hns : ¬ (uniformInt minN maxN rng.countDraw ≤ (sols.length : ℤ)
      ∧ 0 < uniformInt minN maxN rng.countDraw) := fun h => absurd h.1 (not_le.mpr hfew)
  simp only [sampleRoads, if_neg (not_lt.mpr hle), if_neg hns]
  exact distributeLanes_spec sols _ rng.laneDraws (by omega)

/-- C9, witness: one solution point against a drawn target of 3. -/
theorem sampleRoads_few_solutions_witness :
    LaneDistributionSpec
      (uniformInt 3 3 0 - (([⟨1, 0, 0, 0, [-1]⟩] : List Pt).length : ℤ))
      [⟨1, 0, 0, 0, [-1]⟩]
      (sampleRoads 3 3 [⟨1, 0, 0, 0, [-1]⟩] ⟨0, [], [0], []⟩)
      (distributeLanesFinal [⟨1, 0, 0, 0, [-1]⟩]
        (uniformInt 3 3 0 - (([⟨1, 0, 0, 0, [-1]⟩] : List Pt).length : ℤ)) [0]) :=
  sampleRoads_few_solutions 3 3 [⟨1, 0, 0, 0, [-1]⟩] ⟨0, [], [0], []⟩
    (by decide) (by decide)

/-! ## C10 -/

/-- C10: spawn does return immediately when no capacity remains, but
the bound on records fails when the drawn spawn count is 0: with target
fleet size 1 and no active record, a draw of 0 falls into the sampler's
fewer-solutions branch — whose own comment says it is for fewer points
than vehicles — handing one lane to every solution point; with two
solution points on separate roads both candidates commit, so the call
ends with 2 active records, exceeding numberOfVehicles = 1. -/
theorem spawn_capacity_exceeded :
    (spawn 1 0 [] 0 [⟨1, 0, 0, 0, [-1]⟩, ⟨2, 100, 100, 0, [-1]⟩] 0
        ⟨0, [], [], [[0], [0]]⟩).1.length = 2
    ∧ ¬ ((spawn 1 0 [] 0 [⟨1, 0, 0, 0, [-1]⟩, ⟨2, 100, 100, 0, [-1]⟩] 0
        ⟨0, [], [], [[0], [0]]⟩).1.length ≤ 1) := by
  decide

end SwarmTraffic
